import Mathlib

/-
Verification of Display_Logic.h (ESP32_CYD_Othello_Game).

The source file owns the touch-calibration lifecycle
(touch_calibrate_LovyanGFX), the 8x8 keypad geometry (drawKeypad),
the key-color table (initKeyColors), the mode-selector buttons
(drawModeButtons) and the global UI state flags.

External services (LittleFS, the LovyanGFX display/touch object) are
modelled by an explicit environment record (file content, whether each
open call succeeds, and the coefficients the interactive calibration
routine produces) and by an explicit trace record of the observable
calls the function makes on them.
-/

namespace OthelloDisplay

/-! ### Source constants (Display_Logic.h lines 19-67) -/

/-- Line 24: REPEAT_CAL is fixed to false at build time. -/
def REPEAT_CAL : Bool := false

/-- Line 29: x centre of the first key. -/
def KEY_X : Nat := 15

/-- Line 30: y centre of the first key. -/
def KEY_Y : Nat := 15

/-- Line 31: key width. -/
def KEY_W : Nat := 25

/-- Line 32: key height. -/
def KEY_H : Nat := 25

/-- Line 33: horizontal gap between keys. -/
def KEY_SPACING_X : Nat := 5

/-- Line 34: vertical gap between keys. -/
def KEY_SPACING_Y : Nat := 5

/-- Line 36: number of keypad keys. -/
def NUMBER_OF_KEYS : Nat := 64

/-- Line 50: x centre of the first mode button. -/
def GAME_MODE_21_X : Nat := 60

/-- Line 51: x centre of the second mode button. -/
def GAME_MODE_22_X : Nat := 180

/-- Line 49: y centre of both mode buttons. -/
def GAME_MODE_2_Y : Nat := 140

/-- Line 52: mode button width. -/
def GAME_MODE_W : Nat := 110

/-- Line 53: mode button height. -/
def GAME_MODE_H : Nat := 40

/-- LovyanGFX colour constant TFT_DARKGREY (RGB565 0x7BEF), the neutral
key colour used at line 146. -/
def TFT_DARKGREY : Nat := 0x7BEF

/-! ### Calibration store model (touch_calibrate_LovyanGFX, lines 77-140)

The function talks to LittleFS (exists / open r / readBytes / close /
remove / open w / write / close), to the interactive acquisition routine
tft.calibrateTouch, and to the coordinate-mapping service via
tft.setTouchCalibrate.  The environment fixes every external outcome,
so one `CalEnv` determines one execution. -/

/-- Environment of one execution of touch_calibrate_LovyanGFX: the state
of LittleFS and the behaviour of the external services.  Bytes are Nat
values below 256; coefficients are Nat values below 65536 (uint16_t). -/
structure CalEnv where
  /-- Content of the calibration file CALIBRATION_FILE, none if absent.
  LittleFS.exists returns true exactly when this is some. -/
  fileContent : Option (List Nat)
  /-- Whether LittleFS.open of the calibration file in mode r returns a
  valid handle (line 91-92). -/
  openReadOk : Bool
  /-- Whether LittleFS.open of the calibration file in mode w returns a
  valid handle (line 134-135). -/
  openWriteOk : Bool
  /-- The 8 uint16_t coefficients that tft.calibrateTouch stores into
  calData when the acquisition branch runs (line 122). -/
  acquired : List Nat

/-- Observable trace of one execution of touch_calibrate_LovyanGFX. -/
structure CalTrace where
  /-- Content of the calibration file when the function returns. -/
  fileContent : Option (List Nat)
  /-- Number of LittleFS.remove calls (line 89). -/
  removeCalls : Nat
  /-- Number of tft.calibrateTouch calls (line 122). -/
  calibrateTouchCalls : Nat
  /-- The coefficients installed in the coordinate-mapping service when
  the function returns (via tft.setTouchCalibrate at line 102, or inside
  tft.calibrateTouch on the acquisition path). -/
  applied : Option (List Nat)
  /-- Number of bytes passed to f.write (line 136); 0 if no write ran. -/
  writtenBytes : Nat
  /-- Number of file handles successfully opened. -/
  handlesOpened : Nat
  /-- Number of f.close calls (lines 95 and 137). -/
  handlesClosed : Nat

/-- Line 93: f.readBytes((char *)calData, 16) copies the first 16 bytes
of the file into the uint16_t calData[8] buffer.  The ESP32 is
little-endian, so coefficient i is byte 2i plus 256 times byte 2i+1. -/
def decodeCal (bs : List Nat) : List Nat :=
  (List.range 8).map (fun i => bs.getD (2 * i) 0 + 256 * bs.getD (2 * i + 1) 0)

/-- Line 136: f.write((const unsigned char *)calData, 16) writes the 16
bytes of the uint16_t calData[8] buffer, little-endian. -/
def encodeCal (cs : List Nat) : List Nat :=
  (cs.map (fun c => [c % 256, c / 256 % 256])).flatten

/-- Outcome of the read phase, lines 86-98: the calDataOK flag, the
content of the calData buffer when calDataOK is set, the file content
after this phase, and the LittleFS activity it performed. -/
structure ReadPhase where
  calDataOK : Bool
  calData : List Nat
  fileAfter : Option (List Nat)
  removes : Nat
  opens : Nat
  closes : Nat

/-- Lines 86-98 of touch_calibrate_LovyanGFX.  If the file exists and
repeat_cal holds, the file is removed (line 89).  Otherwise the file is
opened for reading; if the handle is valid, readBytes returns
min length 16 bytes, calDataOK is set exactly when that is 16, and the
handle is closed.  When the read is short the calData buffer is only
partially written and never used, so it is modelled as []. -/
def readPhase (repeat_cal : Bool) (env : CalEnv) : ReadPhase :=
  match env.fileContent with
  | none => ⟨false, [], none, 0, 0, 0⟩
  | some bs =>
    if repeat_cal then
      ⟨false, [], none, 1, 0, 0⟩
    else if env.openReadOk then
      if min bs.length 16 = 16 then
        ⟨true, decodeCal bs, some bs, 0, 1, 1⟩
      else
        ⟨false, [], some bs, 0, 1, 1⟩
    else
      ⟨false, [], some bs, 0, 0, 0⟩

/-- Lines 77-140.  After the read phase, line 100 tests
calDataOK && !REPEAT_CAL: if it holds the decoded coefficients are
installed via tft.setTouchCalibrate (line 102).  Otherwise the
acquisition branch runs: tft.calibrateTouch (line 122) acquires the 8
coefficients into calData and installs them in the mapping service
(the LovyanGFX routine applies the calibration it derives), then the
file is opened for writing and, when the handle is valid, the 16 bytes
are written and the handle closed (lines 134-138). -/
def touch_calibrate_LovyanGFX (repeat_cal : Bool) (env : CalEnv) : CalTrace :=
  let p := readPhase repeat_cal env
  if p.calDataOK && !repeat_cal then
    { fileContent := p.fileAfter
      removeCalls := p.removes
      calibrateTouchCalls := 0
      applied := some p.calData
      writtenBytes := 0
      handlesOpened := p.opens
      handlesClosed := p.closes }
  else if env.openWriteOk then
    { fileContent := some (encodeCal env.acquired)
      removeCalls := p.removes
      calibrateTouchCalls := 1
      applied := some env.acquired
      writtenBytes := 16
      handlesOpened := p.opens + 1
      handlesClosed := p.closes + 1 }
  else
    { fileContent := p.fileAfter
      removeCalls := p.removes
      calibrateTouchCalls := 1
      applied := some env.acquired
      writtenBytes := 0
      handlesOpened := p.opens
      handlesClosed := p.closes }

/-! ### Button geometry model (lines 150-198)

LGFX_Button.initButton takes the CENTRE coordinates x, y and the width
and height; the button covers the half-open pixel rectangle from
x - w / 2 (integer division) extending w pixels, and likewise
vertically.  All centres here are far enough from the origin that Nat
subtraction never truncates. -/

/-- Geometry passed to LGFX_Button.initButton: centre and size. -/
structure ButtonGeom where
  cx : Nat
  cy : Nat
  w : Nat
  h : Nat
deriving DecidableEq, Repr

/-- Lines 155-160: the loop body of drawKeypad for a given row and col
computes the key index b = col + row * 8 and calls
key[b].initButton with centre
(KEY_X + col * (KEY_W + KEY_SPACING_X),
 KEY_Y + row * (KEY_H + KEY_SPACING_Y)) and size KEY_W x KEY_H. -/
def keyCell (row col : Nat) : Nat × ButtonGeom :=
  (col + row * 8,
    ⟨KEY_X + col * (KEY_W + KEY_SPACING_X),
     KEY_Y + row * (KEY_H + KEY_SPACING_Y), KEY_W, KEY_H⟩)

/-- Lines 150-165: drawKeypad iterates row 0..7 (outer) and col 0..7
(inner), producing the 64 (index, geometry) pairs in loop order. -/
def drawKeypad : List (Nat × ButtonGeom) :=
  ((List.range 8).map (fun row =>
    (List.range 8).map (fun col => keyCell row col))).flatten

/-- Left edge of the half-open pixel span of a button. -/
def rectLeft (g : ButtonGeom) : Nat := g.cx - g.w / 2

/-- Top edge of the half-open pixel span of a button. -/
def rectTop (g : ButtonGeom) : Nat := g.cy - g.h / 2

/-- Two buttons are disjoint when their half-open spans are separated
horizontally or vertically. -/
def disjointB (a b : ButtonGeom) : Bool :=
  (rectLeft a + a.w ≤ rectLeft b) || (rectLeft b + b.w ≤ rectLeft a) ||
  (rectTop a + a.h ≤ rectTop b) || (rectTop b + b.h ≤ rectTop a)

/-- Every unordered pair of buttons drawn from the list is disjoint. -/
def pairwiseDisjoint : List ButtonGeom → Bool
  | [] => true
  | a :: rest => rest.all (fun b => disjointB a b) && pairwiseDisjoint rest

/-- Lines 144-148: initKeyColors sets keyColor[i] = TFT_DARKGREY for
every i below NUMBER_OF_KEYS. -/
def initKeyColors : List Nat :=
  (List.range NUMBER_OF_KEYS).map (fun _ => TFT_DARKGREY)

/-- Lines 187-197: drawModeButtons calls modeButton[0].initButton with
centre (GAME_MODE_21_X, GAME_MODE_2_Y) and modeButton[1].initButton
with centre (GAME_MODE_22_X, GAME_MODE_2_Y), both sized
GAME_MODE_W x GAME_MODE_H. -/
def drawModeButtons : List ButtonGeom :=
  [⟨GAME_MODE_21_X, GAME_MODE_2_Y, GAME_MODE_W, GAME_MODE_H⟩,
   ⟨GAME_MODE_22_X, GAME_MODE_2_Y, GAME_MODE_W, GAME_MODE_H⟩]

/-- The x centres the grid formula can produce (col 0..7). -/
def gridCentreXs : List Nat :=
  (List.range 8).map (fun col => KEY_X + col * (KEY_W + KEY_SPACING_X))

/-- The y centres the grid formula can produce (row 0..7). -/
def gridCentreYs : List Nat :=
  (List.range 8).map (fun row => KEY_Y + row * (KEY_H + KEY_SPACING_Y))

/-! ### UI mode state (lines 69-73) -/

/-- The global UI flags of Display_Logic.h with their initial values. -/
structure UIState where
  touchedButton : Int
  isButtonTouched : Bool
  isWaitingForHumanMove : Bool
  isSettingsMode : Bool

/-- Lines 69-73: touchedButton = -1, isButtonTouched = false,
isWaitingForHumanMove = false, isSettingsMode = true. -/
def initialUIState : UIState :=
  { touchedButton := -1
    isButtonTouched := false
    isWaitingForHumanMove := false
    isSettingsMode := true }

/-! ### Theorems -/

/-- C6: drawKeypad produces exactly 64 button descriptors; the cell at
(row, col) receives identity row * 8 + col, the 64 identities are
exactly 0..63 each assigned once, each cell is placed at
(KEY_X + col * (KEY_W + KEY_SPACING_X),
 KEY_Y + row * (KEY_H + KEY_SPACING_Y)) with width 25, height 25 and
gaps 5, and the 64 rectangles are pairwise non-overlapping. -/
theorem drawKeypad_grid_correct :
    drawKeypad.length = 64 ∧
    drawKeypad.map Prod.fst = List.range 64 ∧
    (∀ row : Fin 8, ∀ col : Fin 8,
      keyCell row.val col.val =
        (row.val * 8 + col.val,
          ⟨KEY_X + col.val * (KEY_W + KEY_SPACING_X),
           KEY_Y + row.val * (KEY_H + KEY_SPACING_Y), 25, 25⟩)) ∧
    KEY_W = 25 ∧ KEY_H = 25 ∧ KEY_SPACING_X = 5 ∧ KEY_SPACING_Y = 5 ∧
    pairwiseDisjoint (drawKeypad.map Prod.snd) = true := by
  refine ⟨by decide, by decide, ?_, rfl, rfl, rfl, rfl, by decide⟩
  decide

/-- C7: after initKeyColors, all 64 entries of keyColor hold the same
neutral colour TFT_DARKGREY. -/
theorem initKeyColors_all_darkgrey :
    initKeyColors = List.replicate 64 TFT_DARKGREY := by
  decide

/-- C8: at process start, before any transition, isSettingsMode is true
and the system is not awaiting human input. -/
theorem initial_state_settings_mode :
    initialUIState.isSettingsMode = true ∧
    initialUIState.isWaitingForHumanMove = false :=
  ⟨rfl, rfl⟩

/-- C9: the two mode-selector buttons have fixed centres x = 60 and
x = 180 at the same y, width 110 and height 40; neither centre
coordinate is producible by the grid formula; and their rectangles do
not overlap each other. -/
theorem drawModeButtons_fixed_disjoint :
    drawModeButtons = [⟨60, 140, 110, 40⟩, ⟨180, 140, 110, 40⟩] ∧
    gridCentreXs.contains GAME_MODE_21_X = false ∧
    gridCentreXs.contains GAME_MODE_22_X = false ∧
    gridCentreYs.contains GAME_MODE_2_Y = false ∧
    pairwiseDisjoint drawModeButtons = true := by
  decide

/-- Every entry read from a byte list with default 0 is below 256 when
every member is. -/
lemma getD_byte_lt (l : List Nat) (hb : ∀ x ∈ l, x < 256) (n : Nat) :
    l[n]?.getD 0 < 256 := by
  induction l generalizing n with
  | nil => simp
  | cons a t ih =>
    cases n with
    | zero => simpa using hb a (by simp)
    | succ m =>
      have ht : ∀ x ∈ t, x < 256 := fun x hx => hb x (by simp [hx])
      simpa using ih ht m

/-- C1: with the file present, REPEAT_CAL false, a valid read handle and
a read of 16 bytes, the function installs exactly the 8 decoded uint16
coefficients via setTouchCalibrate, never calls calibrateTouch, writes
nothing and removes nothing, leaving the file unchanged. -/
theorem calibration_valid_read_no_acquisition (env : CalEnv) (bs : List Nat)
    (hf : env.fileContent = some bs) (hr : env.openReadOk = true)
    (hlen : min bs.length 16 = 16) (hb : ∀ x ∈ bs, x < 256) :
    (touch_calibrate_LovyanGFX false env).applied = some (decodeCal bs) ∧
    (decodeCal bs).length = 8 ∧
    (∀ c ∈ decodeCal bs, c < 65536) ∧
    (touch_calibrate_LovyanGFX false env).calibrateTouchCalls = 0 ∧
    (touch_calibrate_LovyanGFX false env).writtenBytes = 0 ∧
    (touch_calibrate_LovyanGFX false env).removeCalls = 0 ∧
    (touch_calibrate_LovyanGFX false env).fileContent = some bs := by
  have h3 : ∀ c ∈ decodeCal bs, c < 65536 := by
    intro c hc
    simp [decodeCal] at hc
    obtain ⟨i, hi, hval⟩ := hc
    have h1 := getD_byte_lt bs hb (2 * i)
    have h2 := getD_byte_lt bs hb (2 * i + 1)
    omega
  refine ⟨?_, ?_, h3, ?_, ?_, ?_, ?_⟩ <;>
    simp [touch_calibrate_LovyanGFX, readPhase, hf, hr, hlen, decodeCal]

/-- Environment of the C1 witness: a 16-byte file, valid read handle. -/
def envC1 : CalEnv :=
  ⟨some [172, 14, 117, 1, 134, 14, 243, 14, 58, 1, 114, 1, 248, 0, 8, 15],
   true, true, []⟩

/-- C1 witness at a concrete 16-byte record. -/
theorem calibration_valid_read_no_acquisition_witness :
    (touch_calibrate_LovyanGFX false envC1).applied =
      some (decodeCal [172, 14, 117, 1, 134, 14, 243, 14, 58, 1, 114, 1, 248, 0, 8, 15]) ∧
    (decodeCal [172, 14, 117, 1, 134, 14, 243, 14, 58, 1, 114, 1, 248, 0, 8, 15]).length = 8 ∧
    (∀ c ∈ decodeCal [172, 14, 117, 1, 134, 14, 243, 14, 58, 1, 114, 1, 248, 0, 8, 15], c < 65536) ∧
    (touch_calibrate_LovyanGFX false envC1).calibrateTouchCalls = 0 ∧
    (touch_calibrate_LovyanGFX false envC1).writtenBytes = 0 ∧
    (touch_calibrate_LovyanGFX false envC1).removeCalls = 0 ∧
    (touch_calibrate_LovyanGFX false envC1).fileContent =
      some [172, 14, 117, 1, 134, 14, 243, 14, 58, 1, 114, 1, 248, 0, 8, 15] :=
  calibration_valid_read_no_acquisition envC1 _ rfl rfl (by decide) (by decide)

/-- C2 counterexample: with REPEAT_CAL true, a 16-byte blob on file and
a failing open-for-write, the blob is deleted and acquisition runs, but
nothing is written: the acquired record is NOT persisted, so the claim
that the record is then written over any prior content fails here. -/
theorem repeat_cal_counterexample :
    (touch_calibrate_LovyanGFX true
      ⟨some [172, 14, 117, 1, 134, 14, 243, 14, 58, 1, 114, 1, 248, 0, 8, 15],
       true, false, [3756, 373, 3718, 3827, 314, 370, 248, 3848]⟩).calibrateTouchCalls = 1 ∧
    (touch_calibrate_LovyanGFX true
      ⟨some [172, 14, 117, 1, 134, 14, 243, 14, 58, 1, 114, 1, 248, 0, 8, 15],
       true, false, [3756, 373, 3718, 3827, 314, 370, 248, 3848]⟩).removeCalls = 1 ∧
    (touch_calibrate_LovyanGFX true
      ⟨some [172, 14, 117, 1, 134, 14, 243, 14, 58, 1, 114, 1, 248, 0, 8, 15],
       true, false, [3756, 373, 3718, 3827, 314, 370, 248, 3848]⟩).writtenBytes = 0 ∧
    (touch_calibrate_LovyanGFX true
      ⟨some [172, 14, 117, 1, 134, 14, 243, 14, 58, 1, 114, 1, 248, 0, 8, 15],
       true, false, [3756, 373, 3718, 3827, 314, 370, 248, 3848]⟩).fileContent = none := by
  decide

/-- C2 amended: with REPEAT_CAL true the function always invokes
calibrateTouch; if a blob exists it is removed before acquisition; and
WHEN THE OPEN-FOR-WRITE SUCCEEDS the newly acquired 16-byte record is
written over any prior content. -/
theorem repeat_cal_forces_acquisition (env : CalEnv) :
    (touch_calibrate_LovyanGFX true env).calibrateTouchCalls = 1 ∧
    (env.fileContent.isSome = true →
      (touch_calibrate_LovyanGFX true env).removeCalls = 1) ∧
    (env.openWriteOk = true →
      (touch_calibrate_LovyanGFX true env).writtenBytes = 16 ∧
      (touch_calibrate_LovyanGFX true env).fileContent =
        some (encodeCal env.acquired)) := by
  rcases henv : env.fileContent with _ | bs <;>
    cases hw : env.openWriteOk <;>
    simp [touch_calibrate_LovyanGFX, readPhase, henv, hw]

/-- Environment of the C2 witness: a blob on file, working write. -/
def envC2 : CalEnv :=
  ⟨some [1, 2, 3], true, true, [3756, 373, 3718, 3827, 314, 370, 248, 3848]⟩

/-- C2 witness: amended behaviour at a concrete environment. -/
theorem repeat_cal_forces_acquisition_witness :
    (touch_calibrate_LovyanGFX true envC2).calibrateTouchCalls = 1 ∧
    (touch_calibrate_LovyanGFX true envC2).removeCalls = 1 ∧
    (touch_calibrate_LovyanGFX true envC2).writtenBytes = 16 ∧
    (touch_calibrate_LovyanGFX true envC2).fileContent =
      some (encodeCal envC2.acquired) :=
  ⟨(repeat_cal_forces_acquisition envC2).1,
   (repeat_cal_forces_acquisition envC2).2.1 rfl,
   ((repeat_cal_forces_acquisition envC2).2.2 rfl).1,
   ((repeat_cal_forces_acquisition envC2).2.2 rfl).2⟩

/-- C3: when the blob is absent, or REPEAT_CAL is false and the read
handle is invalid or the file is shorter than 16 bytes, calibrateTouch
runs exactly once and, when the open-for-write succeeds, exactly 16
bytes are written. -/
theorem absent_or_short_blob_acquires (repeat_cal : Bool) (env : CalEnv)
    (h : env.fileContent = none ∨
      (repeat_cal = false ∧ env.openReadOk = false ∧ env.fileContent.isSome = true) ∨
      (repeat_cal = false ∧ ∃ bs, env.fileContent = some bs ∧ bs.length < 16)) :
    (touch_calibrate_LovyanGFX repeat_cal env).calibrateTouchCalls = 1 ∧
    (env.openWriteOk = true →
      (touch_calibrate_LovyanGFX repeat_cal env).writtenBytes = 16) := by
  rcases h with henv | ⟨hrc, hr, hs⟩ | ⟨hrc, bs, henv, hshort⟩
  · cases hw : env.openWriteOk <;>
      simp [touch_calibrate_LovyanGFX, readPhase, henv, hw]
  · rcases henv : env.fileContent with _ | bs
    · simp [henv] at hs
    · cases hw : env.openWriteOk <;>
        simp [touch_calibrate_LovyanGFX, readPhase, henv, hrc, hr, hw]
  · have hne : ¬ (min bs.length 16 = 16) := by omega
    cases hr : env.openReadOk <;> cases hw : env.openWriteOk <;>
      simp [touch_calibrate_LovyanGFX, readPhase, henv, hrc, hr, hw, hne]

/-- Environment of the C3 witness: no file at all, working write. -/
def envC3 : CalEnv :=
  ⟨none, true, true, [3756, 373, 3718, 3827, 314, 370, 248, 3848]⟩

/-- C3 witness: absent blob, acquisition once, 16 bytes written. -/
theorem absent_or_short_blob_acquires_witness :
    (touch_calibrate_LovyanGFX false envC3).calibrateTouchCalls = 1 ∧
    (touch_calibrate_LovyanGFX false envC3).writtenBytes = 16 :=
  ⟨(absent_or_short_blob_acquires false envC3 (Or.inl rfl)).1,
   (absent_or_short_blob_acquires false envC3 (Or.inl rfl)).2 rfl⟩

/-- C4: on every execution path the resulting calibration record is
installed in the coordinate-mapping service before returning: either
acquisition ran and the acquired record is installed, or no acquisition
ran and the record decoded from the file is installed. -/
theorem touch_calibrate_always_applies (repeat_cal : Bool) (env : CalEnv) :
    ((touch_calibrate_LovyanGFX repeat_cal env).calibrateTouchCalls = 1 ∧
     (touch_calibrate_LovyanGFX repeat_cal env).applied = some env.acquired) ∨
    ((touch_calibrate_LovyanGFX repeat_cal env).calibrateTouchCalls = 0 ∧
     ∃ bs, env.fileContent = some bs ∧
       (touch_calibrate_LovyanGFX repeat_cal env).applied = some (decodeCal bs)) := by
  rcases henv : env.fileContent with _ | bs
  · left
    cases hw : env.openWriteOk <;>
      simp [touch_calibrate_LovyanGFX, readPhase, henv, hw]
  · cases repeat_cal
    · cases hr : env.openReadOk
      · left
        cases hw : env.openWriteOk <;>
          simp [touch_calibrate_LovyanGFX, readPhase, henv, hr, hw]
      · by_cases hlen : min bs.length 16 = 16
        · right
          simp [touch_calibrate_LovyanGFX, readPhase, henv, hr, hlen]
        · left
          cases hw : env.openWriteOk <;>
            simp [touch_calibrate_LovyanGFX, readPhase, henv, hr, hlen, hw]
    · left
      cases hw : env.openWriteOk <;>
        simp [touch_calibrate_LovyanGFX, readPhase, henv, hw]

/-- C5: on the acquisition path, when the open-for-write fails nothing
is written and the freshly acquired coefficients are still installed
and available in memory. -/
theorem write_failure_nonfatal (repeat_cal : Bool) (env : CalEnv)
    (hacq : (touch_calibrate_LovyanGFX repeat_cal env).calibrateTouchCalls = 1)
    (hw : env.openWriteOk = false) :
    (touch_calibrate_LovyanGFX repeat_cal env).writtenBytes = 0 ∧
    (touch_calibrate_LovyanGFX repeat_cal env).applied = some env.acquired := by
  unfold touch_calibrate_LovyanGFX at hacq ⊢
  by_cases hc : ((readPhase repeat_cal env).calDataOK && !repeat_cal) = true
  · simp [hc] at hacq
  · simp [hc, hw]

/-- Environment of the C5 witness: no file, failing open-for-write. -/
def envC5 : CalEnv :=
  ⟨none, false, false, [3756, 373, 3718, 3827, 314, 370, 248, 3848]⟩

/-- C5 witness: write failure leaves the acquired record in memory. -/
theorem write_failure_nonfatal_witness :
    (touch_calibrate_LovyanGFX false envC5).writtenBytes = 0 ∧
    (touch_calibrate_LovyanGFX false envC5).applied = some envC5.acquired :=
  write_failure_nonfatal false envC5 (by decide) rfl

/-- C10: on every execution path of touch_calibrate_LovyanGFX the
number of successfully opened file handles equals the number of close
calls: no handle is left open on any branch. -/
theorem no_handle_leak (repeat_cal : Bool) (env : CalEnv) :
    (touch_calibrate_LovyanGFX repeat_cal env).handlesOpened =
    (touch_calibrate_LovyanGFX repeat_cal env).handlesClosed := by
  rcases henv : env.fileContent with _ | bs
  · cases repeat_cal <;> cases hw : env.openWriteOk <;>
      simp [touch_calibrate_LovyanGFX, readPhase, henv, hw]
  · cases repeat_cal
    · by_cases hlen : min bs.length 16 = 16
      · cases hr : env.openReadOk <;> cases hw : env.openWriteOk <;>
          simp [touch_calibrate_LovyanGFX, readPhase, henv, hr, hw, hlen]
      · have hshort : ¬ 16 ≤ bs.length := by omega
        cases hr : env.openReadOk <;> cases hw : env.openWriteOk <;>
          simp [touch_calibrate_LovyanGFX, readPhase, henv, hr, hw, hlen, hshort]
    · cases hw : env.openWriteOk <;>
        simp [touch_calibrate_LovyanGFX, readPhase, henv, hw]

end OthelloDisplay
